import Mathlib

/-!
Verification of the a2a-demo multi-agent system.

This file gives a shallow embedding of the protocol core of the repository:
the task executor and its event emission (src/analyzer-agent/base_executor.py,
class ADKAgentExecutor), the agent-card construction
(create_agent_a2a_server in the same file), and the registry / orchestration
client (class A2AToolClient in src/host-agent/app.py, mirrored by
A2ADemoClient in src/client/demo.py).  External effects (the generation
stream, HTTP fetches and POSTs) are modelled as explicit inputs describing
their outcome; a caught exception is represented by the string the code
would format from it.
-/

namespace A2ASpec

/-- Task lifecycle states of the executor state machine. -/
inductive TaskState where
  | submitted
  | working
  | completed
  | failed
  deriving DecidableEq, Repr

/-- A task as the executor sees it: its id and its context id
(the two fields ADKAgentExecutor.execute reads). -/
structure Task where
  id : String
  contextId : String
  deriving DecidableEq, Repr

/-- One part of a generation event's content.  `text` is `none` when the
part carries no text value; `some ""` models a present but falsy text. -/
structure GenPart where
  text : Option String
  deriving DecidableEq, Repr

/-- One event yielded by the generation stream (runner.run_async):
whether it is a final response, and its content's parts
(`none` models a None content, `some []` an empty part list). -/
structure GenEvent where
  is_final_response : Bool
  content : Option (List GenPart)
  deriving DecidableEq, Repr

/-- Text a single part contributes to the accumulated response: the loop
body appends `part.text + '\n'` when the text attribute is present and
truthy (non-empty), and nothing otherwise. -/
def GenPart.contrib (p : GenPart) : String :=
  match p.text with
  | some t => if t.isEmpty then "" else t ++ "\n"
  | none => ""

/-- Text a single generation event contributes: only events that are a
final response with a non-None content holding a non-empty part list
contribute their parts' text. -/
def GenEvent.contrib (e : GenEvent) : String :=
  if e.is_final_response then
    match e.content with
    | some parts => if parts.isEmpty then "" else String.join (parts.map GenPart.contrib)
    | none => ""
  else ""

/-- The value of `response_text` after the async-for loop of
ADKAgentExecutor.execute has consumed the whole generation stream. -/
def responseTextOf (evs : List GenEvent) : String :=
  String.join (evs.map GenEvent.contrib)

/-- Events enqueued on the per-task event queue, in emission order:
the task object itself (the task-created event), a status update
(TaskUpdater.update_status / TaskUpdater.complete), or an artifact
(TaskUpdater.add_artifact). -/
inductive Event where
  | taskCreated (task : Task)
  | statusUpdate (taskId contextId : String) (state : TaskState) (message : String) (final : Bool)
  | artifactAdded (taskId contextId : String) (name : String) (text : String)
  deriving DecidableEq, Repr

/-- The per-instance configuration of ADKAgentExecutor that execute uses. -/
structure ExecConfig where
  status_message : String
  artifact_name : String
  deriving DecidableEq, Repr

/-- Shallow embedding of ADKAgentExecutor.execute.  `current_task` is
context.current_task; `fresh_task` is the task new_task(context.message)
would build.  `gen` is the outcome of the generation step (session
creation plus draining runner.run_async): `Except.ok` with the streamed
events on normal return, `Except.error` with the exception's string
representation when it raises.  The result is the list of events enqueued
on the event queue, in order.  TaskUpdater semantics follow the event
contract of spec sections 4.2/4.3: update_status enqueues a status event,
add_artifact an artifact event, complete a final completed status event. -/
def execute (cfg : ExecConfig) (current_task : Option Task) (fresh_task : Task)
    (gen : Except String (List GenEvent)) : List Event :=
  let task := current_task.getD fresh_task
  Event.taskCreated task ::
    Event.statusUpdate task.id task.contextId TaskState.working cfg.status_message false ::
      (match gen with
       | Except.ok evs =>
           [Event.artifactAdded task.id task.contextId cfg.artifact_name (responseTextOf evs),
            Event.statusUpdate task.id task.contextId TaskState.completed "" true]
       | Except.error e =>
           [Event.statusUpdate task.id task.contextId TaskState.failed ("Error: " ++ e) true])

/-- A stored task record: state, message history, attached artifacts. -/
structure TaskRecord where
  state : TaskState
  history : List String
  artifacts : List (String × String)
  deriving DecidableEq, Repr

/-- Shallow embedding of ADKAgentExecutor.cancel, whose body is `pass`:
given the task store and a task id it returns the store and the events it
emits. -/
def cancel (store : List (String × TaskRecord)) (task_id : String) :
    List (String × TaskRecord) × List Event :=
  (store, [])

/-- The artifact events of an emitted sequence, as name-text pairs. -/
def artifactsOf (es : List Event) : List (String × String) :=
  es.filterMap fun e =>
    match e with
    | Event.artifactAdded _ _ n t => some (n, t)
    | _ => none

/-- The task state carried by an event, if it is a status event. -/
def Event.stateOf : Event → Option TaskState
  | Event.statusUpdate _ _ st _ _ => some st
  | _ => none

/-- The last task state reported by an emitted sequence. -/
def terminalStateOf (es : List Event) : Option TaskState :=
  (es.filterMap Event.stateOf).getLast?

/-- The observable kind of an emitted event. -/
inductive EventKind where
  | created
  | status (s : TaskState)
  | artifact
  deriving DecidableEq, Repr

/-- Forgetting an event's payload, keeping its kind. -/
def Event.kind : Event → EventKind
  | Event.taskCreated _ => EventKind.created
  | Event.statusUpdate _ _ st _ _ => EventKind.status st
  | Event.artifactAdded _ _ _ _ => EventKind.artifact

theorem error_message_ne_empty (e : String) : ("Error: " ++ e) ≠ "" := by
  intro h
  have hd : ("Error: " ++ e).data = ("" : String).data := congrArg String.data h
  rw [String.data_append] at hd
  simp at hd

/-- C1: when the generation call returns successfully, execute attaches
exactly one artifact, named with the configured artifact_name and holding
the accumulated response text, the terminal state is completed, and the
artifact event is emitted before the completion event. -/
theorem execute_success_single_artifact (cfg : ExecConfig) (ct : Option Task)
    (ft : Task) (evs : List GenEvent) :
    artifactsOf (execute cfg ct ft (Except.ok evs))
        = [(cfg.artifact_name, responseTextOf evs)] ∧
    terminalStateOf (execute cfg ct ft (Except.ok evs)) = some TaskState.completed ∧
    ∃ i j, i < j ∧
      (execute cfg ct ft (Except.ok evs)).get? i
          = some (Event.artifactAdded (ct.getD ft).id (ct.getD ft).contextId
              cfg.artifact_name (responseTextOf evs)) ∧
      (execute cfg ct ft (Except.ok evs)).get? j
          = some (Event.statusUpdate (ct.getD ft).id (ct.getD ft).contextId
              TaskState.completed "" true) :=
  ⟨rfl, rfl, 2, 3, by decide, rfl, rfl⟩

/-- C2: the kinds of the emitted events are, in order,
[created, working, artifact, completed] on success and
[created, working, failed] on failure. -/
theorem execute_event_order (cfg : ExecConfig) (ct : Option Task) (ft : Task) :
    (∀ evs : List GenEvent,
      (execute cfg ct ft (Except.ok evs)).map Event.kind
        = [EventKind.created, EventKind.status TaskState.working,
           EventKind.artifact, EventKind.status TaskState.completed]) ∧
    (∀ e : String,
      (execute cfg ct ft (Except.error e)).map Event.kind
        = [EventKind.created, EventKind.status TaskState.working,
           EventKind.status TaskState.failed]) :=
  ⟨fun _ => rfl, fun _ => rfl⟩

/-- C3: when the generation step raises, execute emits as its last event a
final failed status whose message embeds the exception text (and is hence
non-empty), attaches no artifact, and ends in the failed state; execute
itself is a total function of the outcome, so the exception does not
escape. -/
theorem execute_failure_final (cfg : ExecConfig) (ct : Option Task) (ft : Task)
    (e : String) :
    (execute cfg ct ft (Except.error e)).getLast?
        = some (Event.statusUpdate (ct.getD ft).id (ct.getD ft).contextId
            TaskState.failed ("Error: " ++ e) true) ∧
    ("Error: " ++ e) ≠ "" ∧
    artifactsOf (execute cfg ct ft (Except.error e)) = [] ∧
    terminalStateOf (execute cfg ct ft (Except.error e)) = some TaskState.failed :=
  ⟨rfl, error_message_ne_empty e, rfl, rfl⟩

/-- C7: cancel accepts any task id, leaves the task store unchanged, and
emits no event. -/
theorem cancel_frame (store : List (String × TaskRecord)) (task_id : String) :
    cancel store task_id = (store, []) :=
  rfl

/-- C9: when generation succeeds but the accumulated output is empty, the
executor still attaches exactly one artifact, whose text is empty, and the
event sequence and completed terminal state are the same as for non-empty
output — no branch distinguishes empty successful output. -/
theorem execute_empty_output (cfg : ExecConfig) (ct : Option Task) (ft : Task)
    (evs : List GenEvent) (h : responseTextOf evs = "") :
    artifactsOf (execute cfg ct ft (Except.ok evs)) = [(cfg.artifact_name, "")] ∧
    terminalStateOf (execute cfg ct ft (Except.ok evs)) = some TaskState.completed ∧
    (execute cfg ct ft (Except.ok evs)).map Event.kind
      = [EventKind.created, EventKind.status TaskState.working,
         EventKind.artifact, EventKind.status TaskState.completed] := by
  refine ⟨?_, rfl, rfl⟩
  show [(cfg.artifact_name, responseTextOf evs)] = [(cfg.artifact_name, "")]
  rw [h]

/-- Witness for C9 at a concrete stream: one final-response event with a
None content accumulates the empty string, and the executor still attaches
one empty artifact and completes. -/
theorem execute_empty_output_witness :
    responseTextOf [⟨true, none⟩] = "" ∧
    artifactsOf (execute ⟨"Processing request...", "response"⟩ none ⟨"t1", "c1"⟩
        (Except.ok [⟨true, none⟩])) = [("response", "")] :=
  ⟨rfl, (execute_empty_output ⟨"Processing request...", "response"⟩ none ⟨"t1", "c1"⟩
      [⟨true, none⟩] rfl).1⟩

/-- Python rstrip of slash characters over a character list: drop every
trailing slash. -/
def rstripSlashList (cs : List Char) : List Char :=
  (cs.reverse.dropWhile (fun c => c = '/')).reverse

/-- agent_url.rstrip of the slash character, as used to normalize cache
keys in add_remote_agent. -/
def rstripSlash (s : String) : String :=
  String.mk (rstripSlashList s.data)

/-- Whether the cache dictionary already holds a key. -/
def containsKey {α : Type} (cache : List (String × Option α)) (k : String) : Bool :=
  cache.any (fun p => p.1 = k)

/-- Shallow embedding of A2AToolClient.add_remote_agent (identical in
A2ADemoClient): the cache is the _agent_info_cache dictionary in insertion
order, a key maps to the cached card or none; a new normalized url is
inserted mapping to none only when absent. -/
def add_remote_agent {α : Type} (cache : List (String × Option α))
    (agent_url : String) : List (String × Option α) :=
  if containsKey cache (rstripSlash agent_url) then cache
  else cache ++ [(rstripSlash agent_url, none)]

/-- Shallow embedding of A2AToolClient.list_remote_agents (and of
A2ADemoClient.discover_agents).  `fetch url` models the HTTP GET of the
well-known card document: `some card` on success, `none` for any failure
(connection, timeout, non-2xx status, malformed body), each of which the
per-url try/except catches before the loop moves on.  Returns the updated
cache and the collected results, both in iteration order. -/
def list_remote_agents {α : Type} (fetch : String → Option α) :
    List (String × Option α) → List (String × Option α) × List (String × α)
  | [] => ([], [])
  | (url, old) :: rest =>
    match fetch url with
    | some card =>
        let r := list_remote_agents fetch rest
        ((url, some card) :: r.1, (url, card) :: r.2)
    | none =>
        let r := list_remote_agents fetch rest
        ((url, old) :: r.1, r.2)

theorem list_remote_agents_results_eq {α : Type} (fetch : String → Option α)
    (cache : List (String × Option α)) :
    (list_remote_agents fetch cache).2
      = cache.filterMap (fun p => (fetch p.1).map (fun c => (p.1, c))) := by
  induction cache with
  | nil => rfl
  | cons p rest ih =>
    obtain ⟨url, old⟩ := p
    cases hf : fetch url <;> simp [list_remote_agents, hf, ih]

theorem list_remote_agents_cache_eq {α : Type} (fetch : String → Option α)
    (cache : List (String × Option α)) :
    (list_remote_agents fetch cache).1
      = cache.map (fun p =>
          (p.1, match fetch p.1 with | some c => some c | none => p.2)) := by
  induction cache with
  | nil => rfl
  | cons p rest ih =>
    obtain ⟨url, old⟩ := p
    cases hf : fetch url <;> simp [list_remote_agents, hf, ih]

theorem list_remote_agents_stable {α : Type} (fetch : String → Option α)
    (cache : List (String × Option α)) :
    (list_remote_agents fetch (list_remote_agents fetch cache).1).2
      = (list_remote_agents fetch cache).2 := by
  induction cache with
  | nil => rfl
  | cons p rest ih =>
    obtain ⟨url, old⟩ := p
    cases hf : fetch url <;> simp [list_remote_agents, hf, ih]

/-- C4: each url's fetch failure is handled individually: a url whose
fetch fails is omitted from the returned results, while every url whose
fetch succeeds still appears with its card; the whole operation is a total
function of the fetch outcomes, so one bad peer never makes it raise. -/
theorem list_remote_agents_isolation {α : Type} (fetch : String → Option α)
    (cache : List (String × Option α)) :
    (∀ p ∈ cache, fetch p.1 = none →
        ∀ c : α, (p.1, c) ∉ (list_remote_agents fetch cache).2) ∧
    (∀ p ∈ cache, ∀ c : α, fetch p.1 = some c →
        (p.1, c) ∈ (list_remote_agents fetch cache).2) := by
  constructor
  · intro p hp hf c hmem
    rw [list_remote_agents_results_eq] at hmem
    rcases List.mem_filterMap.mp hmem with ⟨q, _, hmap⟩
    cases hfq : fetch q.1 with
    | none => rw [hfq] at hmap; exact Option.noConfusion hmap
    | some d =>
      rw [hfq, Option.map_some'] at hmap
      have h2 : (q.1, d) = (p.1, c) := Option.some.inj hmap
      injection h2 with h1 h3
      rw [h1, hf] at hfq
      exact Option.noConfusion hfq
  · intro p hp c hf
    rw [list_remote_agents_results_eq]
    exact List.mem_filterMap.mpr ⟨p, hp, by rw [hf]; rfl⟩

/-- A concrete fetch environment: exactly one url answers. -/
def demoFetch : String → Option Nat :=
  fun u => if u = "http://localhost:10020" then some 1 else none

/-- Witness for C4: with one reachable and one unreachable registered url,
the unreachable one is omitted from the results and the reachable one is
present. -/
theorem list_remote_agents_isolation_witness :
    ("http://localhost:10021", 0)
        ∉ (list_remote_agents demoFetch
            [("http://localhost:10020", none), ("http://localhost:10021", none)]).2 ∧
    ("http://localhost:10020", 1)
        ∈ (list_remote_agents demoFetch
            [("http://localhost:10020", none), ("http://localhost:10021", none)]).2 :=
  ⟨(list_remote_agents_isolation demoFetch
        [("http://localhost:10020", none), ("http://localhost:10021", none)]).1
      ("http://localhost:10021", none) (by simp) (by decide) 0,
   (list_remote_agents_isolation demoFetch
        [("http://localhost:10020", none), ("http://localhost:10021", none)]).2
      ("http://localhost:10020", none) (by simp) 1 (by decide)⟩

/-- C6: the cache is keyed by normalized url (add_remote_agent either
leaves the cache alone or appends the slash-stripped url mapped to none);
one discovery call rewrites each entry to the fresh card exactly when its
fetch succeeds and keeps the old value when it fails; and a second
discovery call over the updated cache returns the same results, so two
consecutive calls against an unchanged agent yield identical cards. -/
theorem discovery_cache_spec {α : Type} (fetch : String → Option α)
    (cache : List (String × Option α)) (url : String) :
    (add_remote_agent cache url = cache ∨
       add_remote_agent cache url = cache ++ [(rstripSlash url, none)]) ∧
    (list_remote_agents fetch cache).1
        = cache.map (fun p =>
            (p.1, match fetch p.1 with | some c => some c | none => p.2)) ∧
    (list_remote_agents fetch (list_remote_agents fetch cache).1).2
        = (list_remote_agents fetch cache).2 := by
  refine ⟨?_, list_remote_agents_cache_eq fetch cache,
    list_remote_agents_stable fetch cache⟩
  by_cases h : containsKey cache (rstripSlash url) = true
  · exact Or.inl (by simp [add_remote_agent, h])
  · exact Or.inr (by simp [add_remote_agent, h])

theorem containsKey_append_self {α : Type} (cache : List (String × Option α))
    (k : String) : containsKey (cache ++ [(k, none)]) k = true := by
  simp [containsKey]

theorem rstripSlashList_append_slash (cs : List Char) :
    rstripSlashList (cs ++ ['/']) = rstripSlashList cs := by
  simp [rstripSlashList, List.dropWhile]

theorem rstripSlash_append_slash (s : String) :
    rstripSlash (s ++ "/") = rstripSlash s := by
  show String.mk (rstripSlashList (s ++ "/").data) = String.mk (rstripSlashList s.data)
  rw [String.data_append]
  exact congrArg String.mk (rstripSlashList_append_slash s.data)

/-- C10: registering a url whose normalized form is already a cache key
leaves the cache map unchanged (in particular a previously cached card is
never reset to none), and registering a url and then the same url with a
trailing slash creates only the one entry of the first registration. -/
theorem add_remote_agent_idempotent {α : Type} (cache : List (String × Option α))
    (url : String) :
    (containsKey cache (rstripSlash url) = true → add_remote_agent cache url = cache) ∧
    add_remote_agent (add_remote_agent cache url) (url ++ "/")
        = add_remote_agent cache url ∧
    (∀ n : String, ∀ c : α, (n, some c) ∈ cache →
        (n, some c) ∈ add_remote_agent cache url) := by
  refine ⟨?_, ?_, ?_⟩
  · intro h
    simp [add_remote_agent, h]
  · by_cases h : containsKey cache (rstripSlash url) = true
    · have h1 : add_remote_agent cache url = cache := by simp [add_remote_agent, h]
      rw [h1]
      simp [add_remote_agent, rstripSlash_append_slash, h]
    · have h1 : add_remote_agent cache url = cache ++ [(rstripSlash url, none)] := by
        simp [add_remote_agent, h]
      rw [h1]
      simp [add_remote_agent, rstripSlash_append_slash, containsKey_append_self]
  · intro n c hmem
    by_cases h : containsKey cache (rstripSlash url) = true
    · simpa [add_remote_agent, h] using hmem
    · simp [add_remote_agent, h]
      exact hmem

/-- Witness for C10: re-registering an already-cached url (with a trailing
slash) leaves a cache that holds a fetched card unchanged. -/
theorem add_remote_agent_idempotent_witness :
    containsKey [("http://localhost:10020", some 1)]
        (rstripSlash "http://localhost:10020") = true ∧
    add_remote_agent [("http://localhost:10020", some 1)] "http://localhost:10020"
        = [("http://localhost:10020", some 1)] ∧
    ("http://localhost:10020", some 1)
        ∈ add_remote_agent [("http://localhost:10020", some 1)] "http://localhost:10020/" :=
  ⟨by decide,
   (add_remote_agent_idempotent [("http://localhost:10020", some 1)]
      "http://localhost:10020").1 (by decide),
   (add_remote_agent_idempotent [("http://localhost:10020", some 1)]
      "http://localhost:10020/").2.2 "http://localhost:10020" 1 (by decide)⟩

/-- The observable outcome of one HTTP POST in A2AToolClient.send_message,
once a response object exists: whether raise_for_status passes (2xx) and
the exception text when it does not, whether the body decodes as JSON and
the exception text when it does not, the indented dump of the decoded
body, and the raw response text. -/
structure HttpResponse where
  statusOk : Bool
  statusErrText : String
  jsonOk : Bool
  jsonErrText : String
  jsonDump : String
  text : String
  deriving DecidableEq, Repr

/-- The outcome of the POST call itself: `err` models an exception raised
by the transport (connection failure, timeout, ...) with its string
representation, `ok` a response object. -/
inductive PostResult where
  | err (msg : String)
  | ok (resp : HttpResponse)
  deriving DecidableEq, Repr

/-- The inner try of A2AToolClient's message sender: raise_for_status then
JSON decoding, with any exception caught and turned into an error-report
string that includes the response text. -/
def responseBody (r : HttpResponse) : String :=
  if r.statusOk then
    if r.jsonOk then r.jsonDump
    else "Error in response: " ++ r.jsonErrText ++ "\nResponse text: " ++ r.text
  else "Error in response: " ++ r.statusErrText ++ "\nResponse text: " ++ r.text

/-- Shallow embedding of A2AToolClient's private message sender: a POST
exception propagates (Except.error), a received response is reduced to a
returned string by the inner try. -/
def send_message (post : PostResult) : Except String String :=
  match post with
  | PostResult.err e => Except.error e
  | PostResult.ok r => Except.ok (responseBody r)

/-- Shallow embedding of A2AToolClient.create_task: the message sender is
wrapped in a catch-all that converts any raised exception into a textual
error string returned in place of agent output. -/
def create_task (post : PostResult) : String :=
  match send_message post with
  | Except.ok s => s
  | Except.error e => "Agent communication error: " ++ e

/-- C5: create_task is a total function of the communication outcome — it
never propagates an exception; a transport failure is returned as the
textual string prefixed "Agent communication error: ", and a received
response is returned as the inner try's string (the dump on success, an
"Error in response" text otherwise). -/
theorem create_task_never_raises (post : PostResult) :
    (∀ e : String, post = PostResult.err e →
        create_task post = "Agent communication error: " ++ e) ∧
    (∀ r : HttpResponse, post = PostResult.ok r →
        create_task post = responseBody r) := by
  constructor
  · intro e h
    rw [h]
    rfl
  · intro r h
    rw [h]
    rfl

/-- Witness for C5: a concrete connection failure is surfaced as text. -/
theorem create_task_never_raises_witness :
    create_task (PostResult.err "All connection attempts failed")
      = "Agent communication error: All connection attempts failed" :=
  (create_task_never_raises (PostResult.err "All connection attempts failed")).1
    "All connection attempts failed" rfl

/-- An advertised skill, as in a2a.types.AgentSkill. -/
structure AgentSkill where
  id : String
  name : String
  description : String
  tags : List String
  examples : List String
  deriving DecidableEq, Repr

/-- The capability flag set of an agent card. -/
structure AgentCapabilities where
  streaming : Bool
  deriving DecidableEq, Repr

/-- An agent card, as built by create_agent_a2a_server. -/
structure AgentCard where
  name : String
  description : String
  url : String
  version : String
  defaultInputModes : List String
  defaultOutputModes : List String
  capabilities : AgentCapabilities
  skills : List AgentSkill
  deriving DecidableEq, Repr

/-- Python `a or b` on an optional string: falls through to `b` when `a`
is None or empty (falsy). -/
def pyOrString (a : Option String) (b : String) : String :=
  match a with
  | some s => if s.isEmpty then b else s
  | none => b

/-- Shallow embedding of create_agent_a2a_server: the resolved url is
`endpoint_url or "http://host:port/"`, and the function builds the agent
card together with the executor configuration it hands to
ADKAgentExecutor. -/
def create_agent_a2a_server (name description : String) (skills : List AgentSkill)
    (host : String) (port : Nat) (status_message artifact_name : String)
    (endpoint_url : Option String) : AgentCard × ExecConfig :=
  let resolved_url := pyOrString endpoint_url
    ("http://" ++ host ++ ":" ++ toString port ++ "/")
  (⟨name, description, resolved_url, "1.0.0",
    ["text", "text/plain"], ["text", "text/plain"], ⟨true⟩, skills⟩,
   ⟨status_message, artifact_name⟩)

/-- Counterexample for C8: when the provided endpoint_url is the empty
string, the published card's url is the host/port default, not the
endpoint_url argument — Python's `or` discards a provided falsy value. -/
theorem create_agent_url_empty_endpoint :
    (create_agent_a2a_server "Trend Analysis Host" "Orchestrates trend analysis" []
        "0.0.0.0" 10022 "Orchestrating trend analysis..." "trend_report"
        (some "")).1.url = "http://0.0.0.0:10022/" ∧
    "http://0.0.0.0:10022/" ≠ ("" : String) :=
  ⟨rfl, by decide⟩

/-- C8 (amended): the published card has version 1.0.0, input and output
modes [text, text/plain], streaming declared, the given name, description
and skills, and a url equal to the endpoint_url argument when that is
provided and non-empty, and to the host/port default otherwise. -/
theorem create_agent_card_fields (name description : String)
    (skills : List AgentSkill) (host : String) (port : Nat)
    (status_message artifact_name : String) (endpoint_url : Option String) :
    (create_agent_a2a_server name description skills host port
        status_message artifact_name endpoint_url).1.version = "1.0.0" ∧
    (create_agent_a2a_server name description skills host port
        status_message artifact_name endpoint_url).1.defaultInputModes
        = ["text", "text/plain"] ∧
    (create_agent_a2a_server name description skills host port
        status_message artifact_name endpoint_url).1.defaultOutputModes
        = ["text", "text/plain"] ∧
    (create_agent_a2a_server name description skills host port
        status_message artifact_name endpoint_url).1.capabilities.streaming = true ∧
    (create_agent_a2a_server name description skills host port
        status_message artifact_name endpoint_url).1.name = name ∧
    (create_agent_a2a_server name description skills host port
        status_message artifact_name endpoint_url).1.description = description ∧
    (create_agent_a2a_server name description skills host port
        status_message artifact_name endpoint_url).1.skills = skills ∧
    (create_agent_a2a_server name description skills host port
        status_message artifact_name endpoint_url).1.url
        = (match endpoint_url with
           | some s =>
               if s.isEmpty then "http://" ++ host ++ ":" ++ toString port ++ "/"
               else s
           | none => "http://" ++ host ++ ":" ++ toString port ++ "/") :=
  ⟨rfl, rfl, rfl, rfl, rfl, rfl, rfl, rfl⟩

end A2ASpec
